import Mathlib

/-!
Verification of the EzFinance interest-tracker data pipeline (`src/app.py`).

The program fetches a worksheet of bank deposit rates, validates its schema,
falls back to an embedded 6-row dataset on any failure, coerces the four rate
columns to numbers, and aggregates per-group arithmetic means for a chart.

Embedding choices:
* A spreadsheet cell is a rational number, a string, or a missing marker
  (`Cell.na`, modelling pandas NaN).  Numeric values are modelled as exact
  rationals.
* A fetched table is a `DataFrame`: a list of column names plus rows of cells.
* The fetch itself (network, auth, parsing) is outside the program; `load_data`
  takes the fetch outcome as an `Except` value, mirroring the `try/except`
  around `conn.read`.  The second component of its result is the list of
  display messages emitted to the page (`st.error` calls).
* The Streamlit TTL cache decorator is framework code, modelled from the spec.
-/

set_option autoImplicit false

/-- A spreadsheet cell: a numeric value, a text value, or the missing marker
(pandas NaN). -/
inductive Cell : Type where
  | num (q : ℚ)
  | str (s : String)
  | na
deriving DecidableEq, Repr

/-- A fetched table: the column names returned by `conn.read` (restricted to
the first seven columns by `usecols=list(range(7))`) and the data rows. -/
structure DataFrame : Type where
  cols : List String
  rows : List (List Cell)
deriving DecidableEq, Repr

/-- The required column names checked by `load_data`
(`required_columns = ["Bank", "Group", "Type", "1M", "3M", "6M", "12M"]`). -/
def required_columns : List String := ["Bank", "Group", "Type", "1M", "3M", "6M", "12M"]

/-- The schema validation in `load_data`:
`all(col in df.columns for col in required_columns)`. -/
def validColumns (df : DataFrame) : Bool :=
  required_columns.all (fun c => df.cols.contains c)

/-- One row of the bank-rate data model (columns Bank, Group, Type, 1M, 3M,
6M, 12M), with raw cells as read from the sheet. -/
structure BankRow : Type where
  bank : Cell
  group : Cell
  ty : Cell
  m1 : Cell
  m3 : Cell
  m6 : Cell
  m12 : Cell
deriving DecidableEq, Repr

/-- The embedded fallback dataset of `load_data` (the six mock rows). -/
def fallbackRows : List BankRow :=
  [ ⟨Cell.str "Vietcombank", Cell.str "Big 4", Cell.str "Online",
      Cell.num 2.9, Cell.num 3.2, Cell.num 4.1, Cell.num 5.0⟩,
    ⟨Cell.str "BIDV", Cell.str "Big 4", Cell.str "Online",
      Cell.num 3.0, Cell.num 3.3, Cell.num 4.2, Cell.num 5.1⟩,
    ⟨Cell.str "Agribank", Cell.str "Big 4", Cell.str "Counter",
      Cell.num 2.8, Cell.num 3.0, Cell.num 4.0, Cell.num 5.0⟩,
    ⟨Cell.str "Techcombank", Cell.str "Private Bank", Cell.str "Online",
      Cell.num 3.5, Cell.num 3.8, Cell.num 4.8, Cell.num 5.5⟩,
    ⟨Cell.str "VPBank", Cell.str "Private Bank", Cell.str "Online",
      Cell.num 3.6, Cell.num 4.0, Cell.num 5.2, Cell.num 5.6⟩,
    ⟨Cell.str "MB Bank", Cell.str "Private Bank", Cell.str "Online",
      Cell.num 3.4, Cell.num 3.8, Cell.num 4.7, Cell.num 5.4⟩ ]

/-- A `BankRow` as a data row of the seven-column table. -/
def rowToCells (r : BankRow) : List Cell :=
  [r.bank, r.group, r.ty, r.m1, r.m3, r.m6, r.m12]

/-- The fallback dataset as a `DataFrame` (`pd.DataFrame(data)` at the end of
`load_data`). -/
def fallbackData : DataFrame :=
  ⟨required_columns, fallbackRows.map rowToCells⟩

/-- The message of the `st.error` call on a column mismatch. -/
def colMismatchMsg : String := "Google Sheet column mismatch. Falling back to mock data."

/-- The body of `load_data` in `src/app.py`, as a function of the fetch
outcome.  A fetch error, or a fetched table failing the column check, yields
the fallback dataset; the second component is the list of user-visible display
messages emitted on the way (`st.error` on a column mismatch; the `st.warning`
and `st.info` calls in the `except` branch are commented out in the source). -/
def load_data (fetch : Except String DataFrame) : DataFrame × List String :=
  match fetch with
  | Except.ok df =>
      if validColumns df then (df, [])
      else (fallbackData, [colMismatchMsg])
  | Except.error _ => (fallbackData, [])

/-- [C1] Whenever the fetch raises any error, or the fetched table lacks a
required column, `load_data` returns exactly the embedded 6-row fallback
dataset (and, being a total function, propagates no error to the caller). -/
theorem c1_load_falls_back_on_error_or_mismatch (fetch : Except String DataFrame)
    (h : ∀ df : DataFrame, fetch = Except.ok df → validColumns df = false) :
    (load_data fetch).1 = fallbackData := by
  cases fetch with
  | error e => rfl
  | ok df => simp [load_data, h df rfl]

/-- Witness for C1: a connection error yields the fallback dataset. -/
theorem c1_witness : (load_data (Except.error "connection refused")).1 = fallbackData :=
  c1_load_falls_back_on_error_or_mismatch (Except.error "connection refused")
    (fun _ h => Except.noConfusion h)

/-- [C2] A fetched table containing all seven required columns is returned
unmodified by `load_data`, in particular with the same row count. -/
theorem c2_load_returns_valid_fetch_unmodified (df : DataFrame)
    (h : validColumns df = true) :
    (load_data (Except.ok df)).1 = df ∧
    (load_data (Except.ok df)).1.rows.length = df.rows.length := by
  refine ⟨?_, ?_⟩ <;> simp [load_data, h]

/-- Witness for C2: the fallback table itself passes validation and is
returned unchanged, with its 6 rows. -/
theorem c2_witness :
    (load_data (Except.ok fallbackData)).1 = fallbackData ∧
    (load_data (Except.ok fallbackData)).1.rows.length = fallbackData.rows.length :=
  c2_load_returns_valid_fetch_unmodified fallbackData (by decide)

/-- [C8] The schema validation accepts a fetched table iff every one of the
seven required names occurs among the columns read; extra columns among those
read never cause rejection (the check is a subset check, not an equality). -/
theorem c8_schema_check_iff_required_subset (df : DataFrame) :
    validColumns df = true ↔ ∀ c ∈ required_columns, c ∈ df.cols := by
  simp [validColumns, List.all_eq_true]

/-- Parse an unsigned decimal numeral (digits, optional fractional part) as an
exact rational. -/
def parseNatDigits : List Char → ℕ → Option ℕ
  | [], acc => some acc
  | c :: cs, acc => if c.isDigit then parseNatDigits cs (10 * acc + (c.toNat - 48)) else none

/-- Parse the digits of an unsigned decimal numeral `int[.frac]`. -/
def parseUnsigned (cs : List Char) : Option ℚ :=
  let intPart := cs.takeWhile (fun c => c != '.')
  match cs.dropWhile (fun c => c != '.') with
  | [] =>
      if intPart.isEmpty then none
      else (parseNatDigits intPart 0).map (fun n => (n : ℚ))
  | _ :: frac =>
      if intPart.isEmpty && frac.isEmpty then none
      else
        match parseNatDigits intPart 0, parseNatDigits frac 0 with
        | some i, some f => some ((i : ℚ) + (f : ℚ) / ((10 : ℚ) ^ frac.length))
        | _, _ => none

/-- Strip leading and trailing whitespace from a character list. -/
def trimChars (cs : List Char) : List Char :=
  ((cs.dropWhile Char.isWhitespace).reverse.dropWhile Char.isWhitespace).reverse

/-- Parse a decimal string (optional sign, digits, optional fractional part,
surrounding whitespace ignored) as an exact rational; `none` when the string
is not numeric. -/
def parseRat (s : String) : Option ℚ :=
  match trimChars s.toList with
  | '-' :: cs => (parseUnsigned cs).map (fun q => -q)
  | '+' :: cs => parseUnsigned cs
  | cs => parseUnsigned cs

/-- The per-cell behaviour of `pd.to_numeric(col, errors='coerce')`: numbers
pass through, numeric strings are parsed, anything unparsable (and the missing
marker) becomes the missing marker, represented by `none`. -/
def toNumeric (c : Cell) : Option ℚ :=
  match c with
  | Cell.num q => some q
  | Cell.str s => parseRat s
  | Cell.na => none

/-- One row after the coercion loop
`df_banks[col] = pd.to_numeric(df_banks[col], errors='coerce')` over the four
rate columns. -/
structure NumRow : Type where
  bank : Cell
  group : Cell
  ty : Cell
  m1 : Option ℚ
  m3 : Option ℚ
  m6 : Option ℚ
  m12 : Option ℚ
deriving DecidableEq, Repr

/-- Apply the rate-column coercion loop to one row. -/
def coerceRow (r : BankRow) : NumRow :=
  ⟨r.bank, r.group, r.ty, toNumeric r.m1, toNumeric r.m3, toNumeric r.m6, toNumeric r.m12⟩

/-- One row of the frame selected by `df_banks.groupby("Group")[rate_cols]`:
only the group key and the four coerced rate columns survive the selection. -/
structure GRow : Type where
  group : Cell
  m1 : Option ℚ
  m3 : Option ℚ
  m6 : Option ℚ
  m12 : Option ℚ
deriving DecidableEq, Repr

/-- The column selection `[rate_cols]` after `groupby("Group")`. -/
def selectGroupRates (r : NumRow) : GRow :=
  ⟨r.group, r.m1, r.m3, r.m6, r.m12⟩

/-- The rows the aggregation pipeline actually works on: coerce the rate
columns, then keep only Group and the rate columns. -/
def selectedRows (rows : List BankRow) : List GRow :=
  (rows.map coerceRow).map selectGroupRates

/-- The rate columns `rate_cols = ["1M", "3M", "6M", "12M"]`. -/
def rate_cols : List String := ["1M", "3M", "6M", "12M"]

/-- Look up a raw rate cell of a row by term label. -/
def getRate (r : BankRow) (t : String) : Cell :=
  if t == "1M" then r.m1 else if t == "3M" then r.m3 else if t == "6M" then r.m6 else r.m12

/-- Look up a coerced rate value of a selected row by term label. -/
def gRate (r : GRow) (t : String) : Option ℚ :=
  if t == "1M" then r.m1 else if t == "3M" then r.m3 else if t == "6M" then r.m6 else r.m12

/-- Pandas column mean: the arithmetic mean of the non-missing values, and the
missing marker when every value is missing (NaN-skipping `.mean()`). -/
def meanOpt (xs : List (Option ℚ)) : Option ℚ :=
  if xs.filterMap id = [] then none
  else some ((xs.filterMap id).sum / ((xs.filterMap id).length : ℚ))

/-- The distinct group keys of `groupby("Group")`: rows whose key is the
missing marker are dropped (pandas `groupby` default `dropna=True`). -/
def groupKeys (rows : List BankRow) : List Cell :=
  (((selectedRows rows).map (fun r => r.group)).filter (fun c => c != Cell.na)).dedup

/-- The aggregated mean for one group key and one term column, as computed by
`groupby("Group")[rate_cols].mean()`. -/
def groupMean (rows : List BankRow) (g : Cell) (t : String) : Option ℚ :=
  meanOpt (((selectedRows rows).filter (fun r => r.group == g)).map (fun r => gRate r t))

/-- One row of the melted aggregate
(`avg_df.melt(id_vars="Group", var_name="Term", value_name="Average Rate")`). -/
structure AvgEntry : Type where
  group : Cell
  term : String
  avg : Option ℚ
deriving DecidableEq, Repr

/-- The whole aggregation step feeding the bar chart: group means for every
(Term, Group) combination, in melted long form. -/
def aggregate (rows : List BankRow) : List AvgEntry :=
  (rate_cols.map (fun t => (groupKeys rows).map (fun g => ⟨g, t, groupMean rows g t⟩))).flatten

/-- The non-missing coerced values feeding the mean of one (Group, Term)
pair. -/
def filteredVals (rows : List BankRow) (g : Cell) (t : String) : List ℚ :=
  ((selectedRows rows).filter (fun r => r.group == g)).filterMap (fun r => gRate r t)

/-- [C4] Aggregating the 6-row fallback dataset yields, for Group "Big 4" and
Term "12M", the exact arithmetic mean of 5.0, 5.1, 5.0 (= 151/30 = 5.0333...),
and for Group "Private Bank" and Term "12M", the exact mean of 5.5, 5.6, 5.4
(= 11/2 = 5.5).  Numeric cells are modelled as exact rationals. -/
theorem c4_fallback_group_averages :
    AvgEntry.mk (Cell.str "Big 4") "12M" (some ((151 : ℚ)/30)) ∈ aggregate fallbackRows ∧
    AvgEntry.mk (Cell.str "Private Bank") "12M" (some ((11 : ℚ)/2)) ∈ aggregate fallbackRows := by
  have hkeys : groupKeys fallbackRows = [Cell.str "Big 4", Cell.str "Private Bank"] := by decide
  have h1 : groupMean fallbackRows (Cell.str "Big 4") "12M" = some ((151 : ℚ)/30) := by
    simp [groupMean, selectedRows, fallbackRows, coerceRow, selectGroupRates, toNumeric,
      gRate, meanOpt]
    norm_num
  have h2 : groupMean fallbackRows (Cell.str "Private Bank") "12M" = some ((11 : ℚ)/2) := by
    simp [groupMean, selectedRows, fallbackRows, coerceRow, selectGroupRates, toNumeric,
      gRate, meanOpt]
    norm_num
  constructor
  · have hm : AvgEntry.mk (Cell.str "Big 4") "12M"
        (groupMean fallbackRows (Cell.str "Big 4") "12M") ∈ aggregate fallbackRows := by
      simp [aggregate, rate_cols, hkeys]
    rwa [h1] at hm
  · have hm : AvgEntry.mk (Cell.str "Private Bank") "12M"
        (groupMean fallbackRows (Cell.str "Private Bank") "12M") ∈ aggregate fallbackRows := by
      simp [aggregate, rate_cols, hkeys]
    rwa [h2] at hm

/-- Unfolding `selectedRows` over a cons. -/
theorem selectedRows_cons (r : BankRow) (rows : List BankRow) :
    selectedRows (r :: rows) = selectGroupRates (coerceRow r) :: selectedRows rows := rfl

/-- Looking up a rate of a coerced, selected row is coercing the looked-up raw
cell. -/
theorem gRate_select_coerce (r : BankRow) (t : String) :
    gRate (selectGroupRates (coerceRow r)) t = toNumeric (getRate r t) := by
  simp only [gRate, getRate, selectGroupRates, coerceRow]
  rw [apply_ite toNumeric, apply_ite toNumeric, apply_ite toNumeric]

/-- A leading missing value does not change a NaN-skipping mean. -/
theorem meanOpt_none_cons (xs : List (Option ℚ)) : meanOpt (none :: xs) = meanOpt xs := by
  simp [meanOpt, List.filterMap_cons]

/-- Mapping then keeping the hits is one `filterMap`. -/
theorem filterMap_id_map {α β : Type} (f : α → Option β) (l : List α) :
    (l.map f).filterMap id = l.filterMap f := by
  induction l with
  | nil => rfl
  | cons a l ih => cases h : f a <;> simp [List.filterMap_cons, h, ih]

/-- [C3] In the aggregation, a rate value coerced to the missing marker is
excluded from the (Group, Term) mean rather than treated as 0: the mean equals
the sum of the non-missing values divided by their count, it is the missing
marker when every value of the pair is missing, and prepending a row whose
rate cell does not parse as a number leaves the mean unchanged. -/
theorem c3_missing_values_excluded_from_mean (rows : List BankRow) (g : Cell) (t : String)
    (r : BankRow) (hv : toNumeric (getRate r t) = none) :
    (groupMean rows g t =
      if filteredVals rows g t = [] then none
      else some ((filteredVals rows g t).sum / ((filteredVals rows g t).length : ℚ))) ∧
    groupMean (r :: rows) g t = groupMean rows g t := by
  constructor
  · simp only [groupMean, meanOpt, filteredVals, filterMap_id_map]
  · have hgr : gRate (selectGroupRates (coerceRow r)) t = none := by
      rw [gRate_select_coerce, hv]
    by_cases hg : (selectGroupRates (coerceRow r)).group = g
    · simp [groupMean, selectedRows_cons, List.filter_cons, hg, hgr, meanOpt_none_cons]
    · simp [groupMean, selectedRows_cons, List.filter_cons, hg]

/-- A row whose 1M cell holds unparsable text. -/
def badRow : BankRow :=
  ⟨Cell.str "Foo Bank", Cell.str "Big 4", Cell.str "Online",
    Cell.str "n/a", Cell.na, Cell.na, Cell.na⟩

/-- Witness for C3: prepending a "Big 4" row whose 1M cell holds the text
"n/a" leaves the Big 4 1M average over the fallback dataset unchanged. -/
theorem c3_witness :
    (groupMean fallbackRows (Cell.str "Big 4") "1M" =
      if filteredVals fallbackRows (Cell.str "Big 4") "1M" = [] then none
      else some ((filteredVals fallbackRows (Cell.str "Big 4") "1M").sum /
        ((filteredVals fallbackRows (Cell.str "Big 4") "1M").length : ℚ))) ∧
    groupMean (badRow :: fallbackRows) (Cell.str "Big 4") "1M" =
      groupMean fallbackRows (Cell.str "Big 4") "1M" :=
  c3_missing_values_excluded_from_mean fallbackRows (Cell.str "Big 4") "1M" badRow (by decide)

/-- The fields of a row the aggregation may read: the Group key and the four
rate cells. -/
def projFields (r : BankRow) : Cell × Cell × Cell × Cell × Cell :=
  (r.group, r.m1, r.m3, r.m6, r.m12)

/-- The selected rows are a function of the projected fields alone. -/
theorem selectedRows_eq_of_proj (rows : List BankRow) :
    selectedRows rows = (rows.map projFields).map
      (fun p => GRow.mk p.1 (toNumeric p.2.1) (toNumeric p.2.2.1)
        (toNumeric p.2.2.2.1) (toNumeric p.2.2.2.2)) := by
  simp only [selectedRows, List.map_map]
  rfl

/-- [C9] The group-average aggregation reads only each row's Group field and
its four rate cells: two inputs agreeing row-wise on Group, 1M, 3M, 6M and 12M
(but differing arbitrarily in Bank and Type) aggregate identically. -/
theorem c9_aggregate_depends_only_on_group_and_rates (rows1 rows2 : List BankRow)
    (h : rows1.map projFields = rows2.map projFields) :
    aggregate rows1 = aggregate rows2 := by
  have hsel : selectedRows rows1 = selectedRows rows2 := by
    rw [selectedRows_eq_of_proj, selectedRows_eq_of_proj, h]
  have hkeys : groupKeys rows1 = groupKeys rows2 := by
    unfold groupKeys
    rw [hsel]
  have hmean : groupMean rows1 = groupMean rows2 := by
    funext g t
    unfold groupMean
    rw [hsel]
  unfold aggregate
  rw [hkeys, hmean]

/-- The fallback rows with every Bank name and Type replaced, Group and rates
kept. -/
def altRows : List BankRow :=
  [ ⟨Cell.str "Bank A", Cell.str "Big 4", Cell.str "Counter",
      Cell.num 2.9, Cell.num 3.2, Cell.num 4.1, Cell.num 5.0⟩,
    ⟨Cell.str "Bank B", Cell.str "Big 4", Cell.str "Counter",
      Cell.num 3.0, Cell.num 3.3, Cell.num 4.2, Cell.num 5.1⟩,
    ⟨Cell.str "Bank C", Cell.str "Big 4", Cell.str "Online",
      Cell.num 2.8, Cell.num 3.0, Cell.num 4.0, Cell.num 5.0⟩,
    ⟨Cell.str "Bank D", Cell.str "Private Bank", Cell.str "Counter",
      Cell.num 3.5, Cell.num 3.8, Cell.num 4.8, Cell.num 5.5⟩,
    ⟨Cell.str "Bank E", Cell.str "Private Bank", Cell.str "Counter",
      Cell.num 3.6, Cell.num 4.0, Cell.num 5.2, Cell.num 5.6⟩,
    ⟨Cell.str "Bank F", Cell.str "Private Bank", Cell.str "Counter",
      Cell.num 3.4, Cell.num 3.8, Cell.num 4.7, Cell.num 5.4⟩ ]

/-- Witness for C9: renaming all banks and switching all types in the fallback
dataset leaves the aggregate unchanged. -/
theorem c9_witness : aggregate fallbackRows = aggregate altRows :=
  c9_aggregate_depends_only_on_group_and_rates fallbackRows altRows rfl

/-- Filtering out rows with a missing Group key commutes with coercion and
selection. -/
theorem selectedRows_filter_group (rows : List BankRow) :
    selectedRows (rows.filter (fun r => r.group != Cell.na)) =
    (selectedRows rows).filter (fun gr => gr.group != Cell.na) := by
  induction rows with
  | nil => rfl
  | cons r rows ih =>
    by_cases h : r.group = Cell.na <;>
      simp [selectedRows_cons, List.filter_cons, selectGroupRates, coerceRow, h, ih]

/-- Dropping rows with a missing Group key does not change the key column
left after the `dropna` filter of `groupby`. -/
theorem keyColumn_filter_group (l : List GRow) :
    ((l.filter (fun gr => gr.group != Cell.na)).map (fun r => r.group)).filter
        (fun c => c != Cell.na) =
    (l.map (fun r => r.group)).filter (fun c => c != Cell.na) := by
  induction l with
  | nil => rfl
  | cons a l ih =>
    by_cases h : a.group = Cell.na <;> simp [List.filter_cons, h, ih]

/-- Rows already filtered on a non-missing group key are refiltered to the
same rows when grouped under a non-missing key. -/
theorem filter_group_filter_key (l : List GRow) (g : Cell) (hg : g ≠ Cell.na) :
    (l.filter (fun gr => gr.group != Cell.na)).filter (fun gr => gr.group == g) =
    l.filter (fun gr => gr.group == g) := by
  induction l with
  | nil => rfl
  | cons a l ih =>
    by_cases h : a.group = g
    · have hna : a.group ≠ Cell.na := h ▸ hg
      simp [List.filter_cons, h, hna, hg, ih]
    · by_cases h2 : a.group = Cell.na <;>
        simp [List.filter_cons, h, h2, Ne.symm hg, ih]

/-- Every group key produced by `groupKeys` is non-missing. -/
theorem groupKeys_ne_na (rows : List BankRow) (g : Cell) (hg : g ∈ groupKeys rows) :
    g ≠ Cell.na := by
  unfold groupKeys at hg
  have hmem := List.mem_dedup.mp hg
  have hp := (List.mem_filter.mp hmem).2
  simpa using hp

/-- [C10] Rows whose Group key is the missing marker are silently dropped by
the aggregation: removing them beforehand changes neither the group keys nor
any (Group, Term) average, so they contribute to no group and form none of
their own. -/
theorem c10_missing_group_rows_dropped (rows : List BankRow) :
    aggregate (rows.filter (fun r => r.group != Cell.na)) = aggregate rows := by
  have hkeys : groupKeys (rows.filter (fun r => r.group != Cell.na)) = groupKeys rows := by
    unfold groupKeys
    rw [selectedRows_filter_group, keyColumn_filter_group]
  unfold aggregate
  rw [hkeys]
  refine congrArg List.flatten (List.map_congr_left (fun t _ => ?_))
  refine List.map_congr_left (fun g hgmem => ?_)
  have hgna : g ≠ Cell.na := groupKeys_ne_na rows g hgmem
  have hmean : groupMean (rows.filter (fun r => r.group != Cell.na)) g t =
      groupMean rows g t := by
    unfold groupMean
    rw [selectedRows_filter_group, filter_group_filter_key _ g hgna]
  rw [hmean]

/-- Modelled from the spec: the TTL cache state of the framework decorator on
`load_data` (the decorator itself is host-framework code absent from the
repository); per the spec it is a process-wide `value` plus `fetchedAt`
timestamp pair. -/
structure CacheState : Type where
  value : DataFrame × List String
  fetchedAt : ℕ
deriving DecidableEq, Repr

/-- Modelled from the spec: one cached call of the decorated `load_data`.  Per
the spec, `get` returns the cached value when `now - fetchedAt < ttl` (ttl =
600 seconds) without re-fetching, and otherwise re-invokes the loader and
updates the timestamp.  `fetch now` is what the spreadsheet fetch would return
at time `now`; the Boolean records whether a fetch attempt was performed. -/
def cachedLoad (fetch : ℕ → Except String DataFrame) (s : Option CacheState) (now : ℕ) :
    (DataFrame × List String) × CacheState × Bool :=
  match s with
  | some c =>
      if now - c.fetchedAt < 600 then (c.value, c, false)
      else (load_data (fetch now), ⟨load_data (fetch now), now⟩, true)
  | none => (load_data (fetch now), ⟨load_data (fetch now), now⟩, true)

/-- A table whose seven columns are the required ones reordered; it passes the
validation and differs from the fallback dataset. -/
def refetchedDF : DataFrame :=
  ⟨["Type", "Bank", "Group", "1M", "3M", "6M", "12M"],
    [[Cell.str "Online", Cell.str "SomeBank", Cell.str "Big 4",
      Cell.na, Cell.na, Cell.na, Cell.na]]⟩

/-- A fetch environment that fails before time 600 and succeeds afterwards. -/
def exFetch (t : ℕ) : Except String DataFrame :=
  if t < 600 then Except.error "no route to host" else Except.ok refetchedDF

/-- A cache entry populated at time 0. -/
def exState : CacheState := ⟨(fallbackData, []), 0⟩

/-- Counterexample for C5: two calls only 2 seconds apart, at times 599 and
601, against an entry cached at time 0: the first is a hit, yet the second
straddles the TTL expiry, performs a fetch attempt, and returns a different
result.  The TTL runs from the fetch time, not from the previous call. -/
theorem c5_counterexample :
    601 - 599 < 600 ∧
    (cachedLoad exFetch (some exState) 599).2.2 = false ∧
    (cachedLoad exFetch (some ((cachedLoad exFetch (some exState) 599).2.1)) 601).2.2 = true ∧
    (cachedLoad exFetch (some ((cachedLoad exFetch (some exState) 599).2.1)) 601).1 ≠
      (cachedLoad exFetch (some exState) 599).1 := by
  decide

/-- [C5, amended] For every pair of calls in which the first performs a fetch
attempt (populating the cache at time t0) and the second happens at t1 with
t1 - t0 < 600 seconds, the second call returns the identical result and
performs no fetch attempt; the cache is global state invalidated only by
elapsed time. -/
theorem c5_cache_hit_within_ttl_of_fetch (fetch : ℕ → Except String DataFrame)
    (s : Option CacheState) (t0 t1 : ℕ) (h1 : t1 - t0 < 600)
    (hmiss : (cachedLoad fetch s t0).2.2 = true) :
    (cachedLoad fetch (some ((cachedLoad fetch s t0).2.1)) t1).1 =
      (cachedLoad fetch s t0).1 ∧
    (cachedLoad fetch (some ((cachedLoad fetch s t0).2.1)) t1).2.2 = false := by
  have hstate : (cachedLoad fetch s t0).2.1 = ⟨load_data (fetch t0), t0⟩ ∧
      (cachedLoad fetch s t0).1 = load_data (fetch t0) := by
    cases s with
    | none => exact ⟨rfl, rfl⟩
    | some c =>
      by_cases hc : t0 - c.fetchedAt < 600
      · simp [cachedLoad, hc] at hmiss
      · simp [cachedLoad, hc]
  rw [hstate.1, hstate.2]
  simp [cachedLoad, h1]

/-- A fetch environment that always fails (no secrets configured). -/
def steadyFetch (_t : ℕ) : Except String DataFrame := Except.error "no secrets configured"

/-- Witness for C5 (amended): a cold call at time 0 fetches; a call at time
300 returns the identical result without fetching. -/
theorem c5_witness :
    (cachedLoad steadyFetch (some ((cachedLoad steadyFetch none 0).2.1)) 300).1 =
      (cachedLoad steadyFetch none 0).1 ∧
    (cachedLoad steadyFetch (some ((cachedLoad steadyFetch none 0).2.1)) 300).2.2 = false :=
  c5_cache_hit_within_ttl_of_fetch steadyFetch none 0 300 (by decide) rfl

/-- A fetched table missing every required column. -/
def mismatchDF : DataFrame := ⟨["A"], []⟩

/-- Counterexample for C6: a schema-mismatch fallback does surface an error
display to the end user (the `st.error` call before the raise is active, not
disabled), so not every fallback-triggering execution is display-free. -/
theorem c6_counterexample :
    (load_data (Except.ok mismatchDF)).1 = fallbackData ∧
    (load_data (Except.ok mismatchDF)).2 ≠ [] :=
  ⟨rfl, by decide⟩

/-- [C6, amended] A connection-failure fallback surfaces no display (the
warnings in the except branch are commented out); a schema-mismatch fallback
surfaces exactly the one column-mismatch error display; apart from that
display the two causes are indistinguishable: both return the identical
fallback dataset. -/
theorem c6_fallback_display_only_on_mismatch (e : String) (df : DataFrame)
    (h : validColumns df = false) :
    load_data (Except.error e) = (fallbackData, []) ∧
    load_data (Except.ok df) = (fallbackData, [colMismatchMsg]) :=
  ⟨rfl, by simp [load_data, h]⟩

/-- Witness for C6 (amended): a timeout yields a silent fallback; a one-column
table yields the fallback plus the single error display. -/
theorem c6_witness :
    load_data (Except.error "timeout") = (fallbackData, []) ∧
    load_data (Except.ok mismatchDF) = (fallbackData, [colMismatchMsg]) :=
  c6_fallback_display_only_on_mismatch "timeout" mismatchDF (by decide)

/-- A fetched table with all seven required columns but no data rows. -/
def emptyValidDF : DataFrame := ⟨required_columns, []⟩

/-- Counterexample for C7: a fetch that succeeds with all required columns but
zero rows passes validation and is returned as-is, so the dataset handed to
rendering is empty and the "no bank data to plot" branch is reachable. -/
theorem c7_counterexample :
    validColumns emptyValidDF = true ∧
    (load_data (Except.ok emptyValidDF)).1.rows = [] :=
  ⟨by decide, rfl⟩

/-- [C7, amended] The dataset handed to rendering is empty exactly when the
fetch succeeds with a schema-valid, zero-row table: every fetch failure and
every schema mismatch yields the non-empty 6-row fallback, a non-empty valid
fetched table stays non-empty, and a schema-valid zero-row fetch is the one
execution reaching the "no bank data to plot" branch. -/
theorem c7_nonempty_unless_valid_empty_fetch (fetch : Except String DataFrame) :
    (load_data fetch).1.rows = [] ↔
      ∃ df : DataFrame, fetch = Except.ok df ∧ validColumns df = true ∧ df.rows = [] := by
  cases fetch with
  | error e => simp [load_data, fallbackData, fallbackRows, rowToCells]
  | ok df =>
    by_cases hv : validColumns df
    · simp [load_data, hv]
    · simp [load_data, hv, fallbackData, fallbackRows, rowToCells]
